import Mathlib

/-!
Shallow embedding of the data-access layer of the db_viewer repository
(`ClientDatabaseManager` and the browse-query builder of `DataTableViewer`),
together with theorems settling the frozen claims about it.

JavaScript values that may be bound to SQL statements are modelled by
`JSValue`; the values actually accepted by the sql.js engine by `SqlValue`.
The engine itself is abstract: a `SqlEngine` carries an opaque database type
and a (possibly failing) interpreter for DML statements, and an
`EngineState` tracks the committed database plus an open transaction, so the
BEGIN/COMMIT/ROLLBACK discipline of the mutators can be stated exactly.
Every SQL statement a manager method sends to the engine is also recorded in
an `EngineOp` trace, so "no statement reaches the engine" is the equation
`trace = []`.
-/

namespace DbViewer

/-- The sql.js `SqlValue` type: `number | string | Uint8Array | null`.
JavaScript numbers are modelled by `Int` (no claim depends on float
arithmetic); byte arrays by `List Nat`. -/
inductive SqlValue where
  | null : SqlValue
  | num (n : Int) : SqlValue
  | str (s : String) : SqlValue
  | bytes (bs : List Nat) : SqlValue
deriving DecidableEq, Repr

/-- A JavaScript value as it arrives from the UI layer (`unknown` in the
source): `vOther s` stands for any other object whose `String(value)`
representation is `s`. `vUndefined` and `vNull` are kept apart because the
source distinguishes them in places. -/
inductive JSValue where
  | vNull : JSValue
  | vUndefined : JSValue
  | vNum (n : Int) : JSValue
  | vStr (s : String) : JSValue
  | vBool (b : Bool) : JSValue
  | vBytes (bs : List Nat) : JSValue
  | vOther (s : String) : JSValue
deriving DecidableEq, Repr

/-- `normalizeValue` of `ClientDatabaseManager`: `null`/`undefined` map to
SQL NULL, numbers and strings pass through, booleans become 1/0, byte
buffers pass through, anything else is coerced to its string form. -/
def normalizeValue : JSValue → SqlValue
  | .vNull => .null
  | .vUndefined => .null
  | .vNum n => .num n
  | .vStr s => .str s
  | .vBool b => .num (if b then 1 else 0)
  | .vBytes bs => .bytes bs
  | .vOther s => .str s

/-- Double every occurrence of the character with code `code` in `s`
(the effect of `s.replace(/c/g, cc)` for a single character `c`). -/
def doubleChar (code : Nat) (s : String) : String :=
  String.join (s.toList.map (fun c =>
    if c.toNat = code then String.singleton c ++ String.singleton c
    else String.singleton c))

/-- `quoteIdentifier` of `ClientDatabaseManager` (and the identical helper in
`DataTableViewer`): wrap in double quotes, doubling embedded double quotes.
34 is the character code of the double quote. -/
def quoteIdentifier (s : String) : String :=
  "\"" ++ doubleChar 34 s ++ "\""

/-- The single-quote escaping used by `fetchTableData` for interpolated
values: `value.replace(/'/g, "''")`. 39 is the character code of the single
quote. -/
def escapeSingleQuotes (s : String) : String :=
  doubleChar 39 s

/-- `INTERNAL_ROWID_COLUMN` from `database-types`. -/
def INTERNAL_ROWID_COLUMN : String := "__rowid__"

/-- `RowIdentifier` from `database-types`:
`{ rowid?: number | null; primaryKeyValues?: Record<string, unknown> }`.
`rowid = none` models the absent (undefined) field, `some none` an explicit
null, `some (some n)` a number. The primary-key record is an association
list in insertion order (JavaScript objects preserve it). -/
structure RowIdentifier where
  rowid : Option (Option Int) := none
  primaryKeyValues : Option (List (String × JSValue)) := none
deriving DecidableEq, Repr

/-- The `{ clause, params }` pair returned by `buildWhereClause`. -/
structure WhereClause where
  clause : String
  params : List SqlValue
deriving DecidableEq, Repr

/-- JavaScript `Array.prototype.join(sep)` on a list of strings. -/
def joinWith (sep : String) : List String → String
  | [] => ""
  | [x] => x
  | x :: y :: xs => x ++ sep ++ joinWith sep (y :: xs)

/-- `buildWhereClause` of `ClientDatabaseManager`. The argument is
`Option RowIdentifier` because the source first checks `if (!identifier)`:
a null/undefined identifier is `none`. -/
def buildWhereClause : Option RowIdentifier → WhereClause
  | none => ⟨"", []⟩
  | some identifier =>
    match identifier.rowid with
    | some (some n) => ⟨"rowid = ?", [normalizeValue (.vNum n)]⟩
    | _ =>
      match identifier.primaryKeyValues with
      | some kvs =>
        if kvs.length > 0 then
          ⟨joinWith " AND " (kvs.map (fun kv => quoteIdentifier kv.1 ++ " = ?")),
           kvs.map (fun kv => normalizeValue kv.2)⟩
        else ⟨"", []⟩
      | none => ⟨"", []⟩

/-! ## The engine model and the transactional mutators -/

/-- One call sent to the sql.js engine: `db.exec(sql)` (BEGIN/COMMIT/
ROLLBACK), `db.run(sql, params)` (a DML statement with bound parameters),
or a prepared read-only query (`db.prepare(sql)` plus stepping). -/
inductive EngineOp where
  | exec (sql : String) : EngineOp
  | run (sql : String) (params : List SqlValue) : EngineOp
  | query (sql : String) : EngineOp
deriving DecidableEq, Repr

/-- The abstract sql.js engine over a database carrier `DB`: `runStmt`
interprets one DML statement (and may fail, e.g. on a constraint or type
error); `rollbackFails` makes the engine reject the `ROLLBACK` statement
itself, so the mutators' best-effort rollback can be stated. -/
structure SqlEngine (DB : Type) where
  runStmt : DB → String → List SqlValue → Except String DB
  rollbackFails : Bool := false

/-- Engine-side connection state: the committed database image plus the
pending image of an open transaction, if any. Reads on the same connection
observe the pending image while a transaction is open. -/
structure EngineState (DB : Type) where
  committed : DB
  txn : Option DB := none

/-- The database image observed by a read on the connection. -/
def viewState {DB : Type} (st : EngineState DB) : DB :=
  st.txn.getD st.committed

/-- `db.exec('BEGIN TRANSACTION;')` from an idle connection: open a
transaction whose pending image starts at the committed one. -/
def beginState {DB : Type} (st : EngineState DB) : EngineState DB :=
  ⟨st.committed, some st.committed⟩

/-- `db.exec('COMMIT;')`: promote the pending image to committed. -/
def commitState {DB : Type} : EngineState DB → EngineState DB
  | ⟨_, some d⟩ => ⟨d, none⟩
  | ⟨c, none⟩ => ⟨c, none⟩

/-- `db.exec('ROLLBACK;')`: discard the pending image — unless the engine's
rollback itself fails, in which case the transaction stays open. A failed
DML statement leaves no partial effect (statement-level atomicity), so even
then the pending image is the one from `BEGIN`. -/
def rollbackState {DB : Type} (eng : SqlEngine DB) (st : EngineState DB) :
    EngineState DB :=
  if eng.rollbackFails then st else ⟨st.committed, none⟩

/-- `db.run(sql, params)`: interpret the statement against the image a read
would see, updating the pending image inside a transaction (the committed
one outside). On failure the state is unchanged. -/
def runState {DB : Type} (eng : SqlEngine DB) (st : EngineState DB)
    (sql : String) (params : List SqlValue) : Except String (EngineState DB) :=
  match eng.runStmt (viewState st) sql params with
  | .ok d =>
    match st.txn with
    | some _ => .ok ⟨st.committed, some d⟩
    | none => .ok ⟨d, none⟩
  | .error msg => .error msg

/-- What one mutator call did: its result (`.ok ()` or the re-raised
error), the engine state after the call, and the ordered trace of SQL
statements that reached the engine. -/
structure MutationOutcome (DB : Type) where
  result : Except String Unit
  state : EngineState DB
  trace : List EngineOp

/-- `updateRow` of `ClientDatabaseManager`: drop the synthetic row-id column
from the value map; an empty remainder is a silent no-op; an empty WHERE
clause is an error raised before anything reaches the engine; otherwise
BEGIN, run the parameterized UPDATE, COMMIT (persisting afterwards), and on
failure best-effort ROLLBACK and re-raise. -/
def updateRow {DB : Type} (eng : SqlEngine DB) (st : EngineState DB)
    (tableName : String) (identifier : Option RowIdentifier)
    (values : List (String × JSValue)) : MutationOutcome DB :=
  let entries := values.filter (fun kv => kv.1 ≠ INTERNAL_ROWID_COLUMN)
  if entries.length = 0 then
    ⟨.ok (), st, []⟩
  else
    let setClause := joinWith ", " (entries.map (fun kv => quoteIdentifier kv.1 ++ " = ?"))
    let params := entries.map (fun kv => normalizeValue kv.2)
    let w := buildWhereClause identifier
    if w.clause = "" then
      ⟨.error "Unable to determine row identifier for update", st, []⟩
    else
      let st1 := beginState st
      let sql := "UPDATE " ++ quoteIdentifier tableName ++ " SET " ++ setClause
        ++ " WHERE " ++ w.clause
      let allParams := params ++ w.params
      match runState eng st1 sql allParams with
      | .ok st2 =>
        ⟨.ok (), commitState st2,
         [.exec "BEGIN TRANSACTION;", .run sql allParams, .exec "COMMIT;"]⟩
      | .error msg =>
        ⟨.error msg, rollbackState eng st1,
         [.exec "BEGIN TRANSACTION;", .run sql allParams, .exec "ROLLBACK;"]⟩

/-- `deleteRow` of `ClientDatabaseManager`: an empty WHERE clause is an
error raised before anything reaches the engine; otherwise BEGIN, run the
DELETE, COMMIT, with best-effort ROLLBACK and re-raise on failure. -/
def deleteRow {DB : Type} (eng : SqlEngine DB) (st : EngineState DB)
    (tableName : String) (identifier : Option RowIdentifier) : MutationOutcome DB :=
  let w := buildWhereClause identifier
  if w.clause = "" then
    ⟨.error "Unable to determine row identifier for deletion", st, []⟩
  else
    let st1 := beginState st
    let sql := "DELETE FROM " ++ quoteIdentifier tableName ++ " WHERE " ++ w.clause
    match runState eng st1 sql w.params with
    | .ok st2 =>
      ⟨.ok (), commitState st2,
       [.exec "BEGIN TRANSACTION;", .run sql w.params, .exec "COMMIT;"]⟩
    | .error msg =>
      ⟨.error msg, rollbackState eng st1,
       [.exec "BEGIN TRANSACTION;", .run sql w.params, .exec "ROLLBACK;"]⟩

/-- `insertRow` of `ClientDatabaseManager`: drop the synthetic row-id
column; with no remaining columns issue `INSERT INTO t DEFAULT VALUES`,
otherwise a parameterized column-list INSERT; BEGIN before, COMMIT after,
best-effort ROLLBACK and re-raise on failure. -/
def insertRow {DB : Type} (eng : SqlEngine DB) (st : EngineState DB)
    (tableName : String) (values : List (String × JSValue)) : MutationOutcome DB :=
  let entries := values.filter (fun kv => kv.1 ≠ INTERNAL_ROWID_COLUMN)
  let st1 := beginState st
  let sql :=
    if entries.length = 0 then
      "INSERT INTO " ++ quoteIdentifier tableName ++ " DEFAULT VALUES"
    else
      "INSERT INTO " ++ quoteIdentifier tableName ++ " ("
        ++ joinWith ", " (entries.map (fun kv => quoteIdentifier kv.1)) ++ ") VALUES ("
        ++ joinWith ", " (entries.map (fun _ => "?")) ++ ")"
  let params := if entries.length = 0 then [] else entries.map (fun kv => normalizeValue kv.2)
  match runState eng st1 sql params with
  | .ok st2 =>
    ⟨.ok (), commitState st2,
     [.exec "BEGIN TRANSACTION;", .run sql params, .exec "COMMIT;"]⟩
  | .error msg =>
    ⟨.error msg, rollbackState eng st1,
     [.exec "BEGIN TRANSACTION;", .run sql params, .exec "ROLLBACK;"]⟩

/-! ## Read-side operations: executeQuery, getTableData, getTableColumns -/

/-- A result row as `statement.getAsObject()` yields it: an ordered mapping
from column name to value. -/
def ResultRow : Type := List (String × SqlValue)

/-- `Object.keys` of a result row. -/
def rowKeys (r : ResultRow) : List String := r.map Prod.fst

/-- `Object.values` of a result row. -/
def rowValues (r : ResultRow) : List SqlValue := r.map Prod.snd

/-- The `QueryResult` interface of `client-database`. `rowCount` and
`totalCount` are JavaScript numbers (here `Int`, since `-1` is the
unknown/truncated sentinel); `totalCount`, `limit` and `offset` are
optional fields. -/
structure QueryResult where
  columns : List String
  rows : List (List SqlValue)
  rowCount : Int
  totalCount : Option Int := none
  limit : Option Int := none
  offset : Option Int := none
deriving DecidableEq, Repr

/-- JavaScript `Number.MAX_SAFE_INTEGER`, the row cap used when memory
optimizations are disabled. -/
def jsMaxSafeInteger : Nat := 9007199254740991

/-- `setMaxQueryResultRows`: the configured cap is never below 100. -/
def setMaxQueryResultRows (maxRows : Int) : Int := max 100 maxRows

/-- `executeQuery` of `ClientDatabaseManager`, as a function of the rows the
prepared statement would step through in order (`source`). Column names are
taken from the first fetched row; the first row is always collected, and
further rows only while fewer than `maxRows` have been collected, where
`maxRows` is the configured cap when memory optimizations are on and
`Number.MAX_SAFE_INTEGER` otherwise. `totalCount` is the sentinel `-1`
exactly when the collected count reached the cap. -/
def executeQuery (useMemoryOptimizations : Bool) (maxQueryResultRows : Nat)
    (source : List ResultRow) : QueryResult :=
  let cap := if useMemoryOptimizations then maxQueryResultRows else jsMaxSafeInteger
  match source with
  | [] =>
    { columns := [], rows := [], rowCount := 0,
      totalCount := some (if 0 ≥ cap then -1 else 0) }
  | first :: rest =>
    let collected := first :: rest.take (cap - 1)
    let rows := collected.map rowValues
    let rowCount := collected.length
    { columns := rowKeys first, rows := rows, rowCount := rows.length,
      totalCount := some (if rowCount ≥ cap then -1 else (rows.length : Int)) }

/-- `getTableData` of `ClientDatabaseManager`, as a function of the table's
rows as the engine would return them for
`SELECT rowid as "__rowid__", * FROM t` (each row carries the synthetic
row-id column). The requested limit is clamped to the configured cap when
memory optimizations are on; the exact `COUNT(*)` is issued only when
optimizations are off or the clamped limit is at most 1000, and otherwise
`totalRows` is the sentinel `-1`. The page is the engine's answer to
`LIMIT ? OFFSET ?` with the clamped limit bound as a parameter. -/
def getTableData (useMemoryOptimizations : Bool) (maxQueryResultRows : Nat)
    (table : List ResultRow) (limit : Nat) (offset : Nat) : QueryResult :=
  let limit := if useMemoryOptimizations then min limit maxQueryResultRows else limit
  let totalRows : Int :=
    if !useMemoryOptimizations || limit ≤ 1000 then (table.length : Int) else -1
  let page := (table.drop offset).take limit
  let columns := match page with
    | [] => []
    | first :: _ => rowKeys first
  { columns := columns, rows := page.map rowValues, rowCount := totalRows,
    totalCount := some totalRows, limit := some (limit : Int),
    offset := some (offset : Int) }

/-- The `ColumnInfo` interface of `client-database`: one row of
`PRAGMA table_info`. -/
structure ColumnInfo where
  cid : Int
  name : String
  declaredType : String
  notnull : Int
  dflt_value : JSValue := .vNull
  pk : Int
deriving DecidableEq, Repr

/-- `getTableColumns` of `ClientDatabaseManager`, as a function of the
engine's answer to the introspection pragma (`pragmaRows`). There is no
cache: every call prepares and steps one fresh
`PRAGMA table_info("<table>")` statement, recorded in the returned trace. -/
def getTableColumns (pragmaRows : List ColumnInfo) (tableName : String) :
    List ColumnInfo × List EngineOp :=
  (pragmaRows, [.query ("PRAGMA table_info(" ++ quoteIdentifier tableName ++ ")")])

/-- The engine-op trace of a sequence of consecutive `getTableColumns`
calls for the same table within one session. -/
def getTableColumnsCallsTrace (pragmaRows : List ColumnInfo) (tableName : String)
    (calls : Nat) : List EngineOp :=
  (List.replicate calls (getTableColumns pragmaRows tableName).2).flatten

/-! ## The browse-query builder of `DataTableViewer.fetchTableData` -/

/-- The `FilterOperator` union of `DataTableViewer` (`in` is `inSet` here,
`is_null`/`not_null` are `isNull`/`notNull`). -/
inductive FilterOperator where
  | equals | inSet | gt | gte | lt | lte | between | notNull | isNull
deriving DecidableEq, Repr

/-- A filter value: `string | number | null`. -/
inductive FilterValue where
  | str (s : String) : FilterValue
  | num (n : Int) : FilterValue
  | null : FilterValue
deriving DecidableEq, Repr

/-- The `ColumnFilter` interface of `DataTableViewer`. -/
structure ColumnFilter where
  columnName : String
  operator : FilterOperator
  values : List FilterValue
  rangeStart : Option Int := none
  rangeEnd : Option Int := none
deriving DecidableEq, Repr

/-- How `fetchTableData` splices a string-or-number filter value into SQL
text in the `equals`/`in` branches: strings get their single quotes doubled
and are wrapped in single quotes, other values render as themselves
(JavaScript template interpolation). -/
def renderQuotedValue : FilterValue → String
  | .str s => "'" ++ escapeSingleQuotes s ++ "'"
  | .num n => toString n
  | .null => "null"

/-- Raw `${value}` interpolation used by the comparison branches; an absent
`values[0]` renders as `undefined`. -/
def renderRawValue : Option FilterValue → String
  | some (.str s) => s
  | some (.num n) => toString n
  | some .null => "null"
  | none => "undefined"

/-- `${bound}` interpolation of a `between` bound; an absent bound renders
as `undefined`. -/
def renderRangeBound : Option Int → String
  | some n => toString n
  | none => "undefined"

/-- The `switch (filter.operator)` of `fetchTableData`, producing the SQL
text of one filter condition (the empty string when the `in` value list is
empty, in which case the condition is skipped). All values are interpolated
into the text; none are bound. -/
def filterCondition (filter : ColumnFilter) : String :=
  let colName := quoteIdentifier filter.columnName
  match filter.operator with
  | .equals =>
    match filter.values.head? with
    | some .null => colName ++ " IS NULL"
    | some v => colName ++ " = " ++ renderQuotedValue v
    | none => colName ++ " = undefined"
  | .inSet =>
    if filter.values.length > 0 then
      let nullValues := filter.values.filter (fun v => v = .null)
      let nonNullValues := filter.values.filter (fun v => v ≠ .null)
      let conditions :=
        (if nonNullValues.length > 0 then
          [colName ++ " IN (" ++ joinWith ", " (nonNullValues.map renderQuotedValue) ++ ")"]
        else []) ++
        (if nullValues.length > 0 then [colName ++ " IS NULL"] else [])
      if conditions.length > 1 then "(" ++ joinWith " OR " conditions ++ ")"
      else joinWith "" conditions
    else ""
  | .gt => colName ++ " > " ++ renderRawValue filter.values.head?
  | .gte => colName ++ " >= " ++ renderRawValue filter.values.head?
  | .lt => colName ++ " < " ++ renderRawValue filter.values.head?
  | .lte => colName ++ " <= " ++ renderRawValue filter.values.head?
  | .between =>
    colName ++ " BETWEEN " ++ renderRangeBound filter.rangeStart
      ++ " AND " ++ renderRangeBound filter.rangeEnd
  | .isNull => colName ++ " IS NULL"
  | .notNull => colName ++ " IS NOT NULL"

/-- The free-text search condition of `fetchTableData`: the escaped search
text spliced into a `LIKE '%…%'` for every column of the table, OR'd
together and parenthesized. -/
def searchCondition (columns : List ColumnInfo) (search : String) : String :=
  "(" ++ joinWith " OR "
    (columns.map (fun col =>
      quoteIdentifier col.name ++ " LIKE '%" ++ escapeSingleQuotes search ++ "%'"))
    ++ ")"

/-- The `'asc' | 'desc'` sort direction, rendered via `.toUpperCase()`. -/
inductive SortDirection where
  | asc | desc
deriving DecidableEq, Repr

def SortDirection.render : SortDirection → String
  | .asc => "ASC"
  | .desc => "DESC"

/-- The WHERE-condition list of `fetchTableData`: the search condition (if
search text is present) followed by each filter's non-empty condition. -/
def whereConditions (columns : List ColumnInfo) (search : String)
    (filters : List ColumnFilter) : List String :=
  (if search ≠ "" then [searchCondition columns search] else []) ++
    filters.filterMap (fun f =>
      let c := filterCondition f
      if c = "" then none else some c)

/-- The SQL text `fetchTableData` assembles on its search/sort/filter path:
projection with the synthetic row-id alias, WHERE from search and filters,
optional ORDER BY, and interpolated LIMIT/OFFSET. -/
def buildBrowseQuery (table : String) (columns : List ColumnInfo)
    (search : String) (filters : List ColumnFilter)
    (sortColumn : Option String) (sortDirection : Option SortDirection)
    (itemsPerPage : Nat) (offset : Nat) : String :=
  let conds := whereConditions columns search filters
  "SELECT rowid as " ++ quoteIdentifier INTERNAL_ROWID_COLUMN ++ ", * FROM "
    ++ quoteIdentifier table
    ++ (if conds.length > 0 then " WHERE " ++ joinWith " AND " conds else "")
    ++ (match sortColumn, sortDirection with
        | some c, some d => " ORDER BY " ++ quoteIdentifier c ++ " " ++ d.render
        | _, _ => "")
    ++ " LIMIT " ++ toString itemsPerPage ++ " OFFSET " ++ toString offset

/-- One statement execution as the browse path performs it. `params` is the
list of bound parameters accompanying the SQL text. -/
structure ExecutedQueryCall where
  sql : String
  params : List SqlValue
deriving DecidableEq, Repr

/-- The call `fetchTableData` makes on its search/sort/filter path:
`clientDatabaseManager.executeQuery(query)` — the SQL text alone, with no
bound parameters (the manager's `executeQuery` accepts none and never calls
`bind`). -/
def browseQueryCall (table : String) (columns : List ColumnInfo)
    (search : String) (filters : List ColumnFilter)
    (sortColumn : Option String) (sortDirection : Option SortDirection)
    (itemsPerPage : Nat) (offset : Nat) : ExecutedQueryCall :=
  ⟨buildBrowseQuery table columns search filters sortColumn sortDirection
      itemsPerPage offset, []⟩

/-! ## Concrete engines and databases used by witnesses -/

/-- A two-row demonstration table, as a list of value rows. -/
def demoDb : List (List SqlValue) := [[.num 1, .str "a"], [.num 2, .str "b"]]

/-- An engine that accepts every DML statement without touching the
database image (enough for claims about paths where no statement runs). -/
def acceptAllEngine : SqlEngine (List (List SqlValue)) :=
  ⟨fun d _ _ => .ok d, false⟩

/-- An engine whose every DML statement fails with the given message
(e.g. a type-mismatched bound parameter). -/
def failingEngine (msg : String) : SqlEngine (List (List SqlValue)) :=
  ⟨fun _ _ _ => .error msg, false⟩

/-! ## Helper lemmas -/

theorem strAppend_assoc (a b c : String) : a ++ b ++ c = a ++ (b ++ c) := by
  cases a with
  | mk da =>
    cases b with
    | mk db =>
      cases c with
      | mk dc =>
        show String.mk (da ++ db ++ dc) = String.mk (da ++ (db ++ dc))
        rw [List.append_assoc]

theorem joinWith_cons_eq_append (sep x : String) (xs : List String) :
    ∃ suffix, joinWith sep (x :: xs) = x ++ suffix := by
  cases xs with
  | nil => exact ⟨"", by simp [joinWith]⟩
  | cons y ys =>
    exact ⟨sep ++ joinWith sep (y :: ys), by rw [← strAppend_assoc]; rfl⟩

/-! ## Claims -/

/-- C3: `buildWhereClause` returns `rowid = ?` with the single row-id
parameter when the identifier carries a usable native row id; otherwise,
when it carries a non-empty primary-key map, the `col1 = ? AND col2 = ? …`
clause over the key columns with their normalized values as parameters in
the same order; otherwise the empty clause with no parameters. -/
theorem buildWhereClause_trichotomy (identifier : Option RowIdentifier) :
    (∀ r : RowIdentifier, ∀ n : Int, identifier = some r →
      r.rowid = some (some n) →
      buildWhereClause identifier = ⟨"rowid = ?", [SqlValue.num n]⟩) ∧
    (∀ r : RowIdentifier, ∀ kvs : List (String × JSValue), identifier = some r →
      (r.rowid = none ∨ r.rowid = some none) → r.primaryKeyValues = some kvs →
      kvs ≠ [] →
      buildWhereClause identifier =
        ⟨joinWith " AND " (kvs.map (fun kv => quoteIdentifier kv.1 ++ " = ?")),
         kvs.map (fun kv => normalizeValue kv.2)⟩) ∧
    ((identifier = none ∨
        ∃ r : RowIdentifier, identifier = some r ∧
          (r.rowid = none ∨ r.rowid = some none) ∧
          (r.primaryKeyValues = none ∨ r.primaryKeyValues = some [])) →
      buildWhereClause identifier = ⟨"", []⟩) := by
  refine ⟨?_, ?_, ?_⟩
  · rintro r n rfl hr
    simp [buildWhereClause, hr, normalizeValue]
  · rintro r kvs rfl hr hpk hne
    have hlen : kvs.length > 0 := List.length_pos.mpr hne
    rcases hr with h | h <;>
      simp [buildWhereClause, h, hpk, hlen]
  · rintro (rfl | ⟨r, rfl, hr, hpk⟩)
    · rfl
    · rcases hr with h1 | h1 <;> rcases hpk with h2 | h2 <;>
        simp [buildWhereClause, h1, h2]

/-- Witness for C3: the three branches of `buildWhereClause` at concrete
identifiers. -/
theorem buildWhereClause_trichotomy_witness :
    buildWhereClause (some { rowid := some (some 7) }) =
      ⟨"rowid = ?", [SqlValue.num 7]⟩ ∧
    buildWhereClause
        (some { primaryKeyValues :=
                  some [("a", JSValue.vNum 1), ("b", JSValue.vStr "x")] }) =
      ⟨joinWith " AND "
          ([("a", JSValue.vNum 1), ("b", JSValue.vStr "x")].map
            (fun kv => quoteIdentifier kv.1 ++ " = ?")),
       [("a", JSValue.vNum 1), ("b", JSValue.vStr "x")].map
         (fun kv => normalizeValue kv.2)⟩ ∧
    buildWhereClause (some {}) = ⟨"", []⟩ := by
  refine ⟨?_, ?_, ?_⟩
  · exact (buildWhereClause_trichotomy (some { rowid := some (some 7) })).1
      _ 7 rfl rfl
  · exact (buildWhereClause_trichotomy
        (some { primaryKeyValues :=
                  some [("a", JSValue.vNum 1), ("b", JSValue.vStr "x")] })).2.1
      _ [("a", JSValue.vNum 1), ("b", JSValue.vStr "x")] rfl (Or.inl rfl) rfl
      (by decide)
  · exact (buildWhereClause_trichotomy (some {})).2.2 (Or.inr ⟨_, rfl, Or.inl rfl, Or.inl rfl⟩)

/-- C1 (counterexample): `updateRow` with an invalid identifier but a value
map with no usable entries returns successfully instead of raising an
error — the claim's "the operation raises an error" fails on this call
(nothing reaches the engine, but no error is raised either). -/
theorem updateRow_invalid_identifier_counterexample :
    (updateRow acceptAllEngine ⟨demoDb, none⟩ "t" (some {}) []).result =
      .ok () ∧
    buildWhereClause (some {}) = ⟨"", []⟩ ∧
    (updateRow acceptAllEngine ⟨demoDb, none⟩ "t" (some {}) []).trace = [] := by
  exact ⟨rfl, rfl, rfl⟩

/-- C1 (amended): for every `deleteRow` call, and every `updateRow` call
whose value map keeps at least one non-synthetic entry, an identifier whose
WHERE clause is empty makes the call raise an error with an empty engine
trace — no SQL statement reaches the engine, no transaction is begun — and
the engine state unchanged. (An `updateRow` whose filtered value map is
empty instead returns successfully as a no-op, still sending nothing.) -/
theorem mutation_invalid_identifier_errors {DB : Type} (eng : SqlEngine DB)
    (st : EngineState DB) (tableName : String)
    (identifier : Option RowIdentifier) (values : List (String × JSValue))
    (hw : (buildWhereClause identifier).clause = "")
    (hv : (values.filter (fun kv => kv.1 ≠ INTERNAL_ROWID_COLUMN)).length ≠ 0) :
    updateRow eng st tableName identifier values =
      ⟨.error "Unable to determine row identifier for update", st, []⟩ ∧
    deleteRow eng st tableName identifier =
      ⟨.error "Unable to determine row identifier for deletion", st, []⟩ := by
  constructor
  · simp only [updateRow]
    rw [if_neg hv, if_pos hw]
  · simp only [deleteRow]
    rw [if_pos hw]

/-- Witness for C1 (amended): a concrete update and delete against the
demonstration table with an identifier carrying neither variant. -/
theorem mutation_invalid_identifier_errors_witness :
    updateRow acceptAllEngine ⟨demoDb, none⟩ "t" (some {})
        [("name", JSValue.vStr "z")] =
      ⟨.error "Unable to determine row identifier for update",
       ⟨demoDb, none⟩, []⟩ ∧
    deleteRow acceptAllEngine ⟨demoDb, none⟩ "t" (some {}) =
      ⟨.error "Unable to determine row identifier for deletion",
       ⟨demoDb, none⟩, []⟩ := by
  exact mutation_invalid_identifier_errors acceptAllEngine ⟨demoDb, none⟩ "t"
    (some {}) [("name", JSValue.vStr "z")] rfl (by decide)

/-- C7: an `updateRow` whose value map contains only the synthetic
row-identifier column (in particular, an empty map) is a no-op — the call
returns successfully, sends nothing to the engine, and leaves the engine
state untouched. -/
theorem updateRow_synthetic_only_noop {DB : Type} (eng : SqlEngine DB)
    (st : EngineState DB) (tableName : String)
    (identifier : Option RowIdentifier) (values : List (String × JSValue))
    (h : ∀ kv ∈ values, kv.1 = INTERNAL_ROWID_COLUMN) :
    updateRow eng st tableName identifier values = ⟨.ok (), st, []⟩ := by
  have hnil : values.filter (fun kv => kv.1 ≠ INTERNAL_ROWID_COLUMN) = [] := by
    rw [List.filter_eq_nil_iff]
    intro kv hkv
    simpa using h kv hkv
  simp only [updateRow, hnil]
  rfl

/-- Witness for C7: updating with a map holding only `__rowid__`. -/
theorem updateRow_synthetic_only_noop_witness :
    updateRow acceptAllEngine ⟨demoDb, none⟩ "t"
        (some { rowid := some (some 1) })
        [(INTERNAL_ROWID_COLUMN, JSValue.vNum 5)] =
      ⟨.ok (), ⟨demoDb, none⟩, []⟩ := by
  exact updateRow_synthetic_only_noop acceptAllEngine ⟨demoDb, none⟩ "t"
    (some { rowid := some (some 1) }) [(INTERNAL_ROWID_COLUMN, JSValue.vNum 5)]
    (by decide)

/-- C2: when the DML statement of `insertRow`, `updateRow` or `deleteRow`
fails after the transaction has begun, the mutator attempts a ROLLBACK
(whether or not the engine's rollback itself succeeds — `eng.rollbackFails`
is arbitrary here), re-raises the original error, and the database image a
re-read observes is exactly the one from before the call. -/
theorem mutation_failure_rolls_back {DB : Type} (eng : SqlEngine DB)
    (st : EngineState DB) (tableName : String)
    (identifier : Option RowIdentifier) (values : List (String × JSValue))
    (msg : String)
    (hidle : st.txn = none)
    (hfail : ∀ d sql params, eng.runStmt d sql params = .error msg)
    (hv : (values.filter (fun kv => kv.1 ≠ INTERNAL_ROWID_COLUMN)).length ≠ 0)
    (hw : (buildWhereClause identifier).clause ≠ "") :
    ((insertRow eng st tableName values).result = .error msg ∧
      viewState (insertRow eng st tableName values).state = viewState st ∧
      (insertRow eng st tableName values).trace.getLast? =
        some (.exec "ROLLBACK;")) ∧
    ((updateRow eng st tableName identifier values).result = .error msg ∧
      viewState (updateRow eng st tableName identifier values).state =
        viewState st ∧
      (updateRow eng st tableName identifier values).trace.getLast? =
        some (.exec "ROLLBACK;")) ∧
    ((deleteRow eng st tableName identifier).result = .error msg ∧
      viewState (deleteRow eng st tableName identifier).state = viewState st ∧
      (deleteRow eng st tableName identifier).trace.getLast? =
        some (.exec "ROLLBACK;")) := by
  have hrun : ∀ (st' : EngineState DB) (sql : String) (params : List SqlValue),
      runState eng st' sql params = .error msg := by
    intro st' sql params
    simp only [runState, hfail]
  have hview : viewState (rollbackState eng (beginState st)) = viewState st := by
    cases hrf : eng.rollbackFails <;>
      simp [rollbackState, beginState, viewState, hrf, hidle]
  refine ⟨?_, ?_, ?_⟩
  · simp only [insertRow, hrun]
    exact ⟨trivial, hview, rfl⟩
  · simp only [updateRow]
    rw [if_neg hv, if_neg hw]
    simp only [hrun]
    exact ⟨trivial, hview, rfl⟩
  · simp only [deleteRow]
    rw [if_neg hw]
    simp only [hrun]
    exact ⟨trivial, hview, rfl⟩

/-- Witness for C2: a failing engine (a type-mismatched bound parameter,
say) against the demonstration table; the observed image after each failed
mutator equals the image from before the call. -/
theorem mutation_failure_rolls_back_witness :
    ((insertRow (failingEngine "type mismatch") ⟨demoDb, none⟩ "t"
          [("name", JSValue.vStr "z")]).result = .error "type mismatch" ∧
      viewState (insertRow (failingEngine "type mismatch") ⟨demoDb, none⟩ "t"
          [("name", JSValue.vStr "z")]).state =
        viewState ⟨demoDb, none⟩ ∧
      (insertRow (failingEngine "type mismatch") ⟨demoDb, none⟩ "t"
          [("name", JSValue.vStr "z")]).trace.getLast? =
        some (.exec "ROLLBACK;")) ∧
    ((updateRow (failingEngine "type mismatch") ⟨demoDb, none⟩ "t"
          (some { rowid := some (some 1) })
          [("name", JSValue.vStr "z")]).result = .error "type mismatch" ∧
      viewState (updateRow (failingEngine "type mismatch") ⟨demoDb, none⟩ "t"
          (some { rowid := some (some 1) })
          [("name", JSValue.vStr "z")]).state =
        viewState ⟨demoDb, none⟩ ∧
      (updateRow (failingEngine "type mismatch") ⟨demoDb, none⟩ "t"
          (some { rowid := some (some 1) })
          [("name", JSValue.vStr "z")]).trace.getLast? =
        some (.exec "ROLLBACK;")) ∧
    ((deleteRow (failingEngine "type mismatch") ⟨demoDb, none⟩ "t"
          (some { rowid := some (some 1) })).result = .error "type mismatch" ∧
      viewState (deleteRow (failingEngine "type mismatch") ⟨demoDb, none⟩ "t"
          (some { rowid := some (some 1) })).state =
        viewState ⟨demoDb, none⟩ ∧
      (deleteRow (failingEngine "type mismatch") ⟨demoDb, none⟩ "t"
          (some { rowid := some (some 1) })).trace.getLast? =
        some (.exec "ROLLBACK;")) := by
  exact mutation_failure_rolls_back (failingEngine "type mismatch")
    ⟨demoDb, none⟩ "t" (some { rowid := some (some 1) })
    [("name", JSValue.vStr "z")] "type mismatch" rfl (fun _ _ _ => rfl)
    (by decide) (by decide)

theorem executeQuery_true_rows (maxQRR : Nat) (first : ResultRow)
    (rest : List ResultRow) :
    (executeQuery true maxQRR (first :: rest)).rows =
      (first :: rest.take (maxQRR - 1)).map rowValues := rfl

theorem executeQuery_true_totalCount (maxQRR : Nat) (first : ResultRow)
    (rest : List ResultRow) :
    (executeQuery true maxQRR (first :: rest)).totalCount =
      some (if (first :: rest.take (maxQRR - 1)).length ≥ maxQRR then (-1 : Int)
            else (((first :: rest.take (maxQRR - 1)).map rowValues).length : Int)) :=
  rfl

theorem executeQuery_rows_length (maxQRR : Nat) (source : List ResultRow)
    (h1 : 1 ≤ maxQRR) :
    (executeQuery true maxQRR source).rows.length = min maxQRR source.length := by
  cases source with
  | nil => simp [executeQuery]
  | cons first rest =>
    rw [executeQuery_true_rows]
    simp only [List.length_map, List.length_cons, List.length_take]
    omega

theorem executeQuery_totalCount_sentinel (maxQRR : Nat) (source : List ResultRow)
    (h1 : 1 ≤ maxQRR) (h : maxQRR ≤ source.length) :
    (executeQuery true maxQRR source).totalCount = some (-1) := by
  cases source with
  | nil => simp at h; omega
  | cons first rest =>
    have hcond : (first :: rest.take (maxQRR - 1)).length ≥ maxQRR := by
      simp only [List.length_cons] at h
      simp only [List.length_cons, List.length_take]
      omega
    rw [executeQuery_true_totalCount, if_pos hcond]

theorem executeQuery_totalCount_exact (maxQRR : Nat) (source : List ResultRow)
    (h : source.length < maxQRR) :
    (executeQuery true maxQRR source).totalCount =
      some ((executeQuery true maxQRR source).rows.length : Int) := by
  cases source with
  | nil =>
    simp at h
    simp [executeQuery]
    omega
  | cons first rest =>
    have hcond : ¬ ((first :: rest.take (maxQRR - 1)).length ≥ maxQRR) := by
      simp only [List.length_cons] at h
      simp only [List.length_cons, List.length_take]
      omega
    rw [executeQuery_true_totalCount, if_neg hcond, executeQuery_true_rows]

/-- C5: with memory optimizations on, `executeQuery` against a query that
produces 500 rows under a 100-row cap returns exactly 100 rows with the
`-1` sentinel as `totalCount`; in general the collected rows stop at the
cap (`min maxQRR source.length` rows come back) and the sentinel marks the
truncation whenever the source reaches the cap. -/
theorem executeQuery_maxRows_truncation (maxQRR : Nat) (source : List ResultRow)
    (h1 : 1 ≤ maxQRR) (h500 : source.length = 500) :
    ((executeQuery true 100 source).rows.length = 100 ∧
      (executeQuery true 100 source).totalCount = some (-1)) ∧
    ((executeQuery true maxQRR source).rows.length = min maxQRR source.length ∧
      (maxQRR ≤ source.length →
        (executeQuery true maxQRR source).totalCount = some (-1))) := by
  refine ⟨⟨?_, ?_⟩, ?_, ?_⟩
  · rw [executeQuery_rows_length 100 source (by omega), h500]
    omega
  · exact executeQuery_totalCount_sentinel 100 source (by omega) (by omega)
  · exact executeQuery_rows_length maxQRR source h1
  · exact fun h => executeQuery_totalCount_sentinel maxQRR source h1 h

/-- Witness for C5: 500 equal rows under the default-minimum cap of 100. -/
theorem executeQuery_maxRows_truncation_witness :
    ((executeQuery true 100 (List.replicate 500 [("c", SqlValue.num 0)])).rows.length
        = 100 ∧
      (executeQuery true 100 (List.replicate 500 [("c", SqlValue.num 0)])).totalCount
        = some (-1)) ∧
    ((executeQuery true 100 (List.replicate 500 [("c", SqlValue.num 0)])).rows.length
        = min 100 (List.replicate 500 [("c", SqlValue.num 0)]).length ∧
      (100 ≤ (List.replicate 500 [("c", SqlValue.num 0)]).length →
        (executeQuery true 100 (List.replicate 500 [("c", SqlValue.num 0)])).totalCount
          = some (-1))) := by
  exact executeQuery_maxRows_truncation 100
    (List.replicate 500 [("c", SqlValue.num 0)]) (by omega)
    (by rw [List.length_replicate])

/-- C9: with memory optimizations on, a query producing exactly the cap's
number of rows comes back complete (no row discarded) and yet with the `-1`
sentinel as `totalCount`; `totalCount` equals the returned row count
exactly when the query produces strictly fewer rows than the cap. -/
theorem executeQuery_sentinel_at_exact_cap (maxQRR : Nat)
    (source : List ResultRow) (h1 : 1 ≤ maxQRR) :
    (source.length = maxQRR →
      (executeQuery true maxQRR source).rows.length = source.length ∧
      (executeQuery true maxQRR source).totalCount = some (-1)) ∧
    ((executeQuery true maxQRR source).totalCount =
        some ((executeQuery true maxQRR source).rows.length : Int) ↔
      source.length < maxQRR) := by
  constructor
  · intro h
    constructor
    · rw [executeQuery_rows_length maxQRR source h1, h]
      omega
    · exact executeQuery_totalCount_sentinel maxQRR source h1 (le_of_eq h.symm)
  · constructor
    · intro heq
      by_contra hlt
      push_neg at hlt
      rw [executeQuery_totalCount_sentinel maxQRR source h1 hlt,
        executeQuery_rows_length maxQRR source h1] at heq
      have : (-1 : Int) = (min maxQRR source.length : Nat) :=
        Option.some.inj heq
      omega
    · exact executeQuery_totalCount_exact maxQRR source

/-- Witness for C9: exactly 100 rows under a cap of 100. -/
theorem executeQuery_sentinel_at_exact_cap_witness :
    ((List.replicate 100 [("c", SqlValue.num 0)]).length = 100 →
      (executeQuery true 100 (List.replicate 100 [("c", SqlValue.num 0)])).rows.length
          = (List.replicate 100 [("c", SqlValue.num 0)]).length ∧
      (executeQuery true 100 (List.replicate 100 [("c", SqlValue.num 0)])).totalCount
          = some (-1)) ∧
    ((executeQuery true 100 (List.replicate 100 [("c", SqlValue.num 0)])).totalCount =
        some ((executeQuery true 100 (List.replicate 100 [("c", SqlValue.num 0)])).rows.length : Int) ↔
      (List.replicate 100 [("c", SqlValue.num 0)]).length < 100) := by
  exact executeQuery_sentinel_at_exact_cap 100
    (List.replicate 100 [("c", SqlValue.num 0)]) (by omega)

/-- C10: a query yielding zero result rows comes back with an empty column
list (column names are read off the first fetched row, so none are
available), an empty row list, and `rowCount = 0`. -/
theorem executeQuery_empty_result (useMemoryOptimizations : Bool)
    (maxQueryResultRows : Nat) :
    (executeQuery useMemoryOptimizations maxQueryResultRows []).columns = [] ∧
    (executeQuery useMemoryOptimizations maxQueryResultRows []).rows = [] ∧
    (executeQuery useMemoryOptimizations maxQueryResultRows []).rowCount = 0 :=
  ⟨rfl, rfl, rfl⟩

/-- C6: in `getTableData` with memory optimizations enabled, the requested
page size is clamped to the cap before being applied (both the reported
`limit` and the fetched page use the clamped value); the exact `COUNT(*)`
is skipped — `totalCount` is the `-1` sentinel — exactly when the clamped
page size exceeds 1000, and otherwise `totalCount` is the exact row count
of the table. -/
theorem getTableData_clamps_and_skips_count (maxQueryResultRows : Nat)
    (table : List ResultRow) (limit offset : Nat) :
    (getTableData true maxQueryResultRows table limit offset).limit =
      some ((min limit maxQueryResultRows : Nat) : Int) ∧
    (getTableData true maxQueryResultRows table limit offset).rows =
      ((table.drop offset).take (min limit maxQueryResultRows)).map rowValues ∧
    ((getTableData true maxQueryResultRows table limit offset).totalCount =
        some (-1) ↔ 1000 < min limit maxQueryResultRows) ∧
    (min limit maxQueryResultRows ≤ 1000 →
      (getTableData true maxQueryResultRows table limit offset).totalCount =
        some (table.length : Int)) := by
  have htc : (getTableData true maxQueryResultRows table limit offset).totalCount =
      some (if min limit maxQueryResultRows ≤ 1000 then (table.length : Int)
            else -1) := by
    simp [getTableData]
  refine ⟨rfl, rfl, ?_, ?_⟩
  · rw [htc]
    by_cases h : min limit maxQueryResultRows ≤ 1000
    · rw [if_pos h]
      constructor
      · intro he
        have := Option.some.inj he
        omega
      · intro hgt
        omega
    · rw [if_neg h]
      constructor
      · intro _
        omega
      · intro _
        rfl
  · intro h
    rw [htc, if_pos h]

/-- C4 (counterexample): a browse request with search text `a` over a
single-column table executes SQL whose text carries the user value inline
inside the `LIKE` condition, with an empty bound-parameter list and not a
single `?` placeholder — the search condition is not parameterized. -/
theorem browse_search_interpolated_counterexample :
    (browseQueryCall "t" [⟨0, "c", "TEXT", 0, .vNull, 0⟩] "a" [] none none
        50 0).sql =
      "SELECT rowid as \"__rowid__\", * FROM \"t\" WHERE (\"c\" LIKE '%a%') LIMIT 50 OFFSET 0" ∧
    (browseQueryCall "t" [⟨0, "c", "TEXT", 0, .vNull, 0⟩] "a" [] none none
        50 0).params = [] ∧
    ((browseQueryCall "t" [⟨0, "c", "TEXT", 0, .vNull, 0⟩] "a" [] none none
        50 0).sql.toList.contains (Char.ofNat 63)) = false := by
  refine ⟨by decide, rfl, by decide⟩

/-- C4 (amended): on the search/sort/filter path of `fetchTableData`, every
statement is executed with an empty bound-parameter list; when search text
is present, the search condition — the escaped search value interpolated
into a `LIKE '%…%'` per column — appears verbatim inside the SQL text. -/
theorem browse_values_interpolated_not_bound (table search : String)
    (columns : List ColumnInfo) (filters : List ColumnFilter)
    (sortColumn : Option String) (sortDirection : Option SortDirection)
    (itemsPerPage offset : Nat) (hs : search ≠ "") :
    (browseQueryCall table columns search filters sortColumn sortDirection
        itemsPerPage offset).params = [] ∧
    ∃ pre post,
      (browseQueryCall table columns search filters sortColumn sortDirection
          itemsPerPage offset).sql =
        pre ++ searchCondition columns search ++ post := by
  refine ⟨rfl, ?_⟩
  have hconds : whereConditions columns search filters =
      searchCondition columns search ::
        filters.filterMap (fun f =>
          let c := filterCondition f
          if c = "" then none else some c) := by
    simp [whereConditions, hs]
  obtain ⟨suf, hsuf⟩ := joinWith_cons_eq_append " AND "
    (searchCondition columns search)
    (filters.filterMap (fun f =>
      let c := filterCondition f
      if c = "" then none else some c))
  refine ⟨"SELECT rowid as " ++ quoteIdentifier INTERNAL_ROWID_COLUMN
      ++ ", * FROM " ++ quoteIdentifier table ++ " WHERE ",
    suf ++ (match sortColumn, sortDirection with
        | some c, some d => " ORDER BY " ++ quoteIdentifier c ++ " " ++ d.render
        | _, _ => "")
      ++ (" LIMIT " ++ toString itemsPerPage ++ " OFFSET " ++ toString offset),
    ?_⟩
  show buildBrowseQuery table columns search filters sortColumn sortDirection
      itemsPerPage offset = _
  simp only [buildBrowseQuery]
  rw [hconds]
  rw [if_pos (by simp)]
  rw [hsuf]
  simp only [strAppend_assoc]

/-- Witness for C4 (amended): the concrete single-column search request. -/
theorem browse_values_interpolated_not_bound_witness :
    (browseQueryCall "t" [⟨0, "c", "TEXT", 0, .vNull, 0⟩] "a" [] none none
        50 0).params = [] ∧
    ∃ pre post,
      (browseQueryCall "t" [⟨0, "c", "TEXT", 0, .vNull, 0⟩] "a" [] none none
          50 0).sql =
        pre ++ searchCondition [⟨0, "c", "TEXT", 0, .vNull, 0⟩] "a" ++ post := by
  exact browse_values_interpolated_not_bound "t" "a"
    [⟨0, "c", "TEXT", 0, .vNull, 0⟩] [] none none 50 0 (by decide)

/-- C8 (counterexample): two consecutive `getTableColumns` calls for the
same table issue two `PRAGMA table_info` introspection queries against the
engine, not one — there is no per-(database, table) cache. -/
theorem getTableColumns_no_cache_counterexample :
    getTableColumnsCallsTrace [] "t" 2 =
      [.query "PRAGMA table_info(\"t\")", .query "PRAGMA table_info(\"t\")"] ∧
    ¬ (getTableColumnsCallsTrace [] "t" 2).length = 1 := by
  refine ⟨by decide, by decide⟩

/-- C8 (amended): `getTableColumns` returns the engine's pragma rows as the
column list and issues exactly one fresh introspection query on every call:
`k` consecutive calls for the same (database, table) pair send `k`
introspection queries to the engine. -/
theorem getTableColumns_queries_every_call (pragmaRows : List ColumnInfo)
    (tableName : String) (calls : Nat) :
    (getTableColumns pragmaRows tableName).1 = pragmaRows ∧
    (getTableColumns pragmaRows tableName).2 =
      [.query ("PRAGMA table_info(" ++ quoteIdentifier tableName ++ ")")] ∧
    (getTableColumnsCallsTrace pragmaRows tableName calls).length = calls := by
  refine ⟨rfl, rfl, ?_⟩
  induction calls with
  | zero => rfl
  | succ k ih =>
    simp only [getTableColumnsCallsTrace, getTableColumns, List.replicate_succ,
      List.flatten_cons, List.length_append, List.length_cons,
      List.length_nil] at ih ⊢
    omega
